import Mathlib

/-!
Shallow embedding of the two source files of the `collab_ui` crate excerpt:

* `src/crates/collab_ui/src/incoming_call_notification.rs`
* `src/crates/collab_ui/src/collab_titlebar_item.rs`

Both files are presentation-layer glue: they read state from external models
(workspace, project, active call, user store, client) and either build a tree
of visual elements or delegate to external services.  The embedding follows
the source structure:

* Render functions are translated into pure functions producing an `Element`
  tree.  Purely visual styling (theme colours, paddings, widths, alignment,
  cursor styles) is elided; every datum, branch, child and ordering decision
  of the source is kept, as are the identifying pieces of state the source
  feeds into the tree (label texts, svg paths, avatar data, replica ids used
  for handler regions and ribbon colours, dispatched actions, tooltip texts).
* UiAction handlers are translated into functions returning the list of
  delegations they perform on external services (`ActiveCall`, `Project`,
  `UserStore`, the window system), in program order, as `Effect` values.
  Awaited fallible futures become explicit success/failure parameters.
* Types owned by crates outside the excerpt (`client`, `call`) are modelled
  from their use sites and the spec, keeping exactly the fields this code
  reads.
-/

/-- Modelled from the spec: `client::User` (client crate, not in the excerpt).
Only the fields the excerpt reads: the github login shown in labels and
tooltips, and the optional avatar image (image data abstracted as a `Nat`). -/
structure User where
  github_login : String
  avatar : Option Nat
  deriving DecidableEq

/-- Modelled from the spec: `client::incoming_call::IncomingCall` (client
crate, not in the excerpt).  Only the fields the notification reads: the
calling user and the optional id of the project shared with the call. -/
structure IncomingCall where
  caller : User
  initial_project_id : Option Nat
  deriving DecidableEq

/-- Modelled from the spec: `client::Status` (client crate, not in the
excerpt).  The six variants named by `render_connection_status` are kept
verbatim; the remaining variants are those the client exposes and the
source's wildcard arm covers.  Payloads irrelevant to this code are `Nat`. -/
inductive Status where
  | signedOut : Status
  | upgradeRequired : Status
  | authenticating : Status
  | connecting : Status
  | connectionError : Status
  | connected (connection_id : Nat) : Status
  | connectionLost : Status
  | reauthenticating : Status
  | reconnecting : Status
  | reconnectionError (next_reconnection : Nat) : Status
  deriving DecidableEq

/-- Modelled from the spec: `client::Status::is_connected` (client crate, not
in the excerpt): a status is connected exactly when it is the `Connected`
variant. -/
def Status.is_connected : Status → Bool
  | Status.connected _ => true
  | _ => false

/-- One externally visible delegation performed by an action handler.  The
handlers in the excerpt delegate to external services (`ActiveCall`,
`Project`, `UserStore`) and to the window system; each delegation is recorded
as one effect, in program order. -/
inductive Effect where
  | declineCall : Effect
  | joinCall (call : IncomingCall) : Effect
  | removeWindow (window_id : Nat) : Effect
  | addNotificationWindow (window_id : Nat) : Effect
  | openRemoteProject (project_id : Nat) : Effect
  | addWorkspaceWindow (project_id : Nat) : Effect
  | shareProject (room_id : Nat) : Effect
  deriving DecidableEq

/-- Actions dispatched by mouse handlers in the two files:
`RespondToCall { accept }`, `ToggleContactsPopover`, `ShareProject`,
`Authenticate` and `ToggleFollow(peer_id)`. -/
inductive UiAction where
  | respondToCall (accept : Bool) : UiAction
  | toggleContactsPopover : UiAction
  | shareProject : UiAction
  | authenticate : UiAction
  | toggleFollow (peer_id : Nat) : UiAction
  deriving DecidableEq

/-- Flex direction (`Flex::row()` / `Flex::column()`). -/
inductive Axis where
  | horizontal : Axis
  | vertical : Axis
  deriving DecidableEq

/-- The element trees the two views produce.  Styling-only wrappers
(`contained`, `aligned`, `constrained`, colours, widths) are elided; the
constructors keep the structural pieces and every piece of model state the
source renders: label texts, svg asset paths, avatar image data, the replica
id that keys a handler region and an avatar ribbon's colour, the action a
mouse handler dispatches, and tooltip texts.  `childView` stands for the
embedded `ContactsPopover` view, whose crate is outside the excerpt. -/
inductive Element where
  | empty : Element
  | label (text : String) : Element
  | svg (path : String) : Element
  | image (data : Nat) : Element
  | avatarRibbon (replica_id : Nat) : Element
  | flex (axis : Axis) (children : List Element) : Element
  | stack (children : List Element) : Element
  | overlay (child : Element) : Element
  | childView : Element
  | mouseHandler (region_id : Nat) (click : UiAction) (child : Element) : Element
  | tooltip (region_id : Nat) (text : String) (child : Element) : Element

mutual

/-- All (click action, handled subtree) pairs of mouse event handlers in an
element tree, in tree order. -/
def clickHandlers : Element → List (UiAction × Element)
  | Element.mouseHandler _ a c => (a, c) :: clickHandlers c
  | Element.flex _ cs => clickHandlersL cs
  | Element.stack cs => clickHandlersL cs
  | Element.overlay c => clickHandlers c
  | Element.tooltip _ _ c => clickHandlers c
  | _ => []

/-- `clickHandlers` over a list of children. -/
def clickHandlersL : List Element → List (UiAction × Element)
  | [] => []
  | c :: cs => clickHandlers c ++ clickHandlersL cs

end

mutual

/-- All label texts in an element tree, in tree order. -/
def labelTexts : Element → List String
  | Element.label t => [t]
  | Element.flex _ cs => labelTextsL cs
  | Element.stack cs => labelTextsL cs
  | Element.overlay c => labelTexts c
  | Element.mouseHandler _ _ c => labelTexts c
  | Element.tooltip _ _ c => labelTexts c
  | _ => []

/-- `labelTexts` over a list of children. -/
def labelTextsL : List Element → List String
  | [] => []
  | c :: cs => labelTexts c ++ labelTextsL cs

end

mutual

/-- The replica ids of all avatar ribbons in an element tree, in tree order.
Each rendered avatar carries exactly one ribbon whose colour is keyed by the
replica id, so this lists rendered avatars in order. -/
def ribbonIds : Element → List Nat
  | Element.avatarRibbon r => [r]
  | Element.flex _ cs => ribbonIdsL cs
  | Element.stack cs => ribbonIdsL cs
  | Element.overlay c => ribbonIds c
  | Element.mouseHandler _ _ c => ribbonIds c
  | Element.tooltip _ _ c => ribbonIds c
  | _ => []

/-- `ribbonIds` over a list of children. -/
def ribbonIdsL : List Element → List Nat
  | [] => []
  | c :: cs => ribbonIds c ++ ribbonIdsL cs

end

/-- The internal action `RespondToCall { accept: bool }` of
`incoming_call_notification.rs`. -/
structure RespondToCall where
  accept : Bool
  deriving DecidableEq

/-- The `IncomingCallNotification` view: it stores the incoming call it was
created for (`IncomingCallNotification::new`).  The `app_state` field only
bundles handles to external services, which the embedding records as
effects, so it carries no data here. -/
structure IncomingCallNotification where
  call : IncomingCall
  deriving DecidableEq

/-- The future spawned by the `accept` branch of
`IncomingCallNotification::respond_to_call`: it awaits the `ActiveCall::join`
task; on success, if the call carries an `initial_project_id`, it awaits
`Project::remote` for that id and, on success, adds a workspace window for
the opened project.  `join_ok` and `remote_ok` say whether the two awaited
fallible futures succeed (a failed await aborts the rest of the future). -/
def IncomingCallNotification.accept_task (initial_project_id : Option Nat)
    (join_ok remote_ok : Bool) : List Effect :=
  if join_ok then
    match initial_project_id with
    | some project_id =>
        Effect.openRemoteProject project_id ::
          (if remote_ok then [Effect.addWorkspaceWindow project_id] else [])
    | none => []
  else []

/-- `IncomingCallNotification::respond_to_call`, as the list of delegations it
performs, in program order.  If the action accepts, it calls
`ActiveCall::join` with the stored call and spawns `accept_task`; otherwise
it calls `UserStore::decline_call`.  Either way it then removes its own
window (`window_id` is `cx.window_id()`). -/
def IncomingCallNotification.respond_to_call (n : IncomingCallNotification)
    (action : RespondToCall) (window_id : Nat) (join_ok remote_ok : Bool) :
    List Effect :=
  if action.accept then
    Effect.joinCall n.call :: Effect.removeWindow window_id ::
      IncomingCallNotification.accept_task n.call.initial_project_id join_ok remote_ok
  else
    [Effect.declineCall, Effect.removeWindow window_id]

/-- How one effect changes the set of open notification pop-up windows:
`remove_window` closes the named window, `add_window` for a notification
opens one; effects addressed to other services leave the set alone. -/
def notificationWindowStep (windows : List Nat) : Effect → List Nat
  | Effect.removeWindow w => windows.erase w
  | Effect.addNotificationWindow w => windows ++ [w]
  | _ => windows

/-- The set of open notification pop-up windows after a list of effects. -/
def notificationWindowsAfter (windows : List Nat) (effects : List Effect) :
    List Nat :=
  effects.foldl notificationWindowStep windows

/-- `IncomingCallNotification::render_caller`: a row holding the caller's
avatar image when there is one, followed by a label with the caller's github
login. -/
def IncomingCallNotification.render_caller (n : IncomingCallNotification) :
    Element :=
  Element.flex Axis.horizontal
    ((n.call.caller.avatar.map (fun avatar => Element.image avatar)).toList ++
      [Element.label n.call.caller.github_login])

/-- `IncomingCallNotification::render_buttons`: a row holding an Accept mouse
handler that dispatches `RespondToCall { accept: true }` and a Decline mouse
handler that dispatches `RespondToCall { accept: false }`. -/
def IncomingCallNotification.render_buttons (_n : IncomingCallNotification) :
    Element :=
  Element.flex Axis.horizontal
    [Element.mouseHandler 0 (UiAction.respondToCall true)
        (Element.label "Accept"),
      Element.mouseHandler 0 (UiAction.respondToCall false)
        (Element.label "Decline")]

/-- `<IncomingCallNotification as View>::render`: a column holding the caller
row and the buttons row. -/
def IncomingCallNotification.render (n : IncomingCallNotification) : Element :=
  Element.flex Axis.vertical [n.render_caller, n.render_buttons]

/-- State of the incoming-call watch loop spawned by
`incoming_call_notification::init`: the loop's local `notification_window`
variable, the set of notification windows currently open, and a counter
supplying fresh window ids for `cx.add_window`. -/
structure LoopState where
  notification_window : Option Nat
  open_windows : List Nat
  next_window_id : Nat
  deriving DecidableEq

/-- One iteration of the watch loop in `incoming_call_notification::init`: when
the stream yields, any window recorded in `notification_window` is taken and
removed first; then, only if the yielded value holds an incoming call, a new
pop-up window is added and recorded. -/
def loopStep (s : LoopState) (incoming : Option IncomingCall) : LoopState :=
  let s1 :=
    match s.notification_window with
    | some window_id =>
        { s with
            notification_window := none
            open_windows := s.open_windows.erase window_id }
    | none => s
  match incoming with
  | some _ =>
      { s1 with
          notification_window := some s1.next_window_id
          open_windows := s1.open_windows ++ [s1.next_window_id]
          next_window_id := s1.next_window_id + 1 }
  | none => s1

/-- The loop's starting state: `notification_window = None`, no notification
window open. -/
def initLoopState : LoopState :=
  { notification_window := none, open_windows := [], next_window_id := 0 }

/-- The watch loop of `incoming_call_notification::init` run over a finite
prefix of the incoming-call stream. -/
def runLoop (events : List (Option IncomingCall)) : LoopState :=
  events.foldl loopStep initLoopState

/-- Modelled from the spec: `project::Collaborator` (project crate, not in
the excerpt).  Only the fields the titlebar reads: the collaborator's peer id
(the key of the project's collaborator map) and replica id. -/
structure Collaborator where
  peer_id : Nat
  replica_id : Nat
  deriving DecidableEq

/-- Modelled from the spec: `call::ParticipantLocation` (call crate, not in
the excerpt).  The titlebar only compares a participant's location against
`ParticipantLocation::Project { project_id }`. -/
inductive ParticipantLocation where
  | project (project_id : Nat) : ParticipantLocation
  | external : ParticipantLocation
  deriving DecidableEq

/-- Modelled from the spec: a remote participant of a `call::Room` (call
crate, not in the excerpt).  Only the fields the titlebar reads: the
participant's user and location. -/
structure Participant where
  user : User
  location : ParticipantLocation
  deriving DecidableEq

/-- Modelled from the spec: `call::Room` (call crate, not in the excerpt).
Only what the titlebar reads: the room id and the map from peer id to remote
participant, embedded as an association list. -/
structure Room where
  id : Nat
  remote_participants : List (Nat × Participant)
  deriving DecidableEq

/-- `HashMap::get` on the association-list embedding of
`Room::remote_participants`. -/
def Room.getParticipant : List (Nat × Participant) → Nat → Option Participant
  | [], _ => none
  | (k, p) :: rest, peer_id =>
      if k = peer_id then some p else Room.getParticipant rest peer_id

/-- The external state `CollabTitlebarItem`'s render and handlers read:
whether the weak workspace handle still upgrades, the client status, the
project's shared/remote flags, its `remote_id` and `replica_id`, the values
of its collaborator map, the active call's room if any, the user store's
current user, the peer ids the workspace is following, and whether the
contacts popover view is present on the item itself. -/
structure TitlebarState where
  workspace_alive : Bool
  status : Status
  is_shared : Bool
  is_remote : Bool
  remote_id : Option Nat
  replica_id : Nat
  collaborators : List Collaborator
  room : Option Room
  current_user : Option User
  following : List Nat
  contacts_popover : Bool
  deriving DecidableEq

/-- `Workspace::is_following(peer_id)` over the embedded list of followed
peers. -/
def TitlebarState.is_following (s : TitlebarState) (peer_id : Nat) : Bool :=
  s.following.contains peer_id

/-- Stable insertion into a list sorted by `replica_id` (helper for
`Vec::sort_by_key`). -/
def insertByReplicaId (c : Collaborator) : List Collaborator → List Collaborator
  | [] => [c]
  | d :: ds =>
      if c.replica_id ≤ d.replica_id then c :: d :: ds
      else d :: insertByReplicaId c ds

/-- `collaborators.sort_by_key(|collaborator| collaborator.replica_id)`:
stable sort by replica id, embedded as insertion sort. -/
def sortByReplicaId : List Collaborator → List Collaborator
  | [] => []
  | c :: cs => insertByReplicaId c (sortByReplicaId cs)

/-- `CollabTitlebarItem::render_avatar`: an avatar image stacked over a
ribbon coloured by the replica id; when rendered for a peer it is wrapped in
a `ToggleFollow` mouse handler keyed by the replica id and a follow/unfollow
tooltip keyed by the peer id.  `is_active` only selects between two avatar
styles, which the embedding elides. -/
def CollabTitlebarItem.render_avatar (avatar : Nat) (replica_id : Nat)
    (peer : Option (Nat × String)) (_is_active : Bool) (s : TitlebarState) :
    Element :=
  let content :=
    Element.stack [Element.image avatar, Element.avatarRibbon replica_id]
  match peer with
  | some (peer_id, peer_github_login) =>
      Element.tooltip peer_id
        (if s.is_following peer_id then "Unfollow " ++ peer_github_login
          else "Follow " ++ peer_github_login)
        (Element.mouseHandler replica_id (UiAction.toggleFollow peer_id)
          content)
  | none => content

/-- `CollabTitlebarItem::render_collaborators`: when a room is active, the
project's collaborators are collected, sorted by replica id, and each one
whose peer id is a remote participant of the room and whose user has an
avatar is rendered as an avatar; otherwise the list is empty. -/
def CollabTitlebarItem.render_collaborators (s : TitlebarState) :
    List Element :=
  match s.room with
  | some room =>
      (sortByReplicaId s.collaborators).filterMap (fun collaborator =>
        match Room.getParticipant room.remote_participants collaborator.peer_id with
        | none => none
        | some participant =>
            let user := participant.user
            let is_active :=
              match s.remote_id with
              | some project_id =>
                  participant.location = ParticipantLocation.project project_id
              | none => false
            match user.avatar with
            | none => none
            | some avatar =>
                some (CollabTitlebarItem.render_avatar avatar
                  collaborator.replica_id
                  (some (collaborator.peer_id, user.github_login))
                  is_active s))
  | none => []

/-- `CollabTitlebarItem::render_current_user`: the current user's avatar when
there is one; otherwise no element if an upgrade is required, and a sign-in
mouse handler dispatching `Authenticate` in every other case. -/
def CollabTitlebarItem.render_current_user (s : TitlebarState) :
    Option Element :=
  match (s.current_user.bind (fun user => user.avatar)) with
  | some avatar =>
      some (CollabTitlebarItem.render_avatar avatar s.replica_id none true s)
  | none =>
      match s.status with
      | Status.upgradeRequired => none
      | _ =>
          some (Element.mouseHandler 0 UiAction.authenticate
            (Element.label "Sign in"))

/-- `CollabTitlebarItem::render_connection_status`: an offline icon for the
five error/reconnection statuses, the update warning label for
`UpgradeRequired`, nothing otherwise. -/
def CollabTitlebarItem.render_connection_status (s : TitlebarState) :
    Option Element :=
  match s.status with
  | Status.connectionError => some (Element.svg "icons/cloud_slash_12.svg")
  | Status.connectionLost => some (Element.svg "icons/cloud_slash_12.svg")
  | Status.reauthenticating => some (Element.svg "icons/cloud_slash_12.svg")
  | Status.reconnecting => some (Element.svg "icons/cloud_slash_12.svg")
  | Status.reconnectionError _ => some (Element.svg "icons/cloud_slash_12.svg")
  | Status.upgradeRequired =>
      some (Element.label "Please update Zed to collaborate")
  | _ => none

/-- `CollabTitlebarItem::render_toggle_contacts_button`: a stack holding a
mouse handler on the plus icon that dispatches `ToggleContactsPopover`, plus
an overlay with the popover child view when one is present. -/
def CollabTitlebarItem.render_toggle_contacts_button (s : TitlebarState) :
    Element :=
  Element.stack
    ([Element.mouseHandler 0 UiAction.toggleContactsPopover
        (Element.svg "icons/plus_8.svg")] ++
      (if s.contacts_popover then [Element.overlay Element.childView] else []))

/-- `CollabTitlebarItem::render_share_button`: a mouse handler on the Share
label that dispatches `ShareProject`, wrapped in its tooltip. -/
def CollabTitlebarItem.render_share_button (_s : TitlebarState) : Element :=
  Element.tooltip 0 "Share project with call participants"
    (Element.mouseHandler 0 UiAction.shareProject (Element.label "Share"))

/-- `<CollabTitlebarItem as View>::render`, paired with the list of
delegations it performs on external services (its body performs none: it
only reads).  An unupgradable workspace yields `Empty`.  Otherwise a row is
built; when the client is connected it starts with the toggle-contacts
button if the project is shared or remote or no room is active, and with the
share button otherwise; the collaborator avatars, the current-user element
and the connection-status element follow. -/
def CollabTitlebarItem.render (s : TitlebarState) : Element × List Effect :=
  if s.workspace_alive then
    let controls : List Element :=
      if s.status.is_connected then
        if s.is_shared || s.is_remote || s.room.isNone then
          [CollabTitlebarItem.render_toggle_contacts_button s]
        else
          [CollabTitlebarItem.render_share_button s]
      else []
    (Element.flex Axis.horizontal
        (controls ++ CollabTitlebarItem.render_collaborators s ++
          (CollabTitlebarItem.render_current_user s).toList ++
          (CollabTitlebarItem.render_connection_status s).toList),
      [])
  else (Element.empty, [])

/-- `CollabTitlebarItem::share_project`: when the workspace upgrades and the
active call has a room, delegate to `Project::share` with the room's id;
otherwise do nothing. -/
def CollabTitlebarItem.share_project (s : TitlebarState) : List Effect :=
  if s.workspace_alive then
    match s.room with
    | some room => [Effect.shareProject room.id]
    | none => []
  else []

/-- How a delegated effect changes the state the titlebar displays:
`Project::share(room_id)` marks the project shared; the other effects act on
services whose state the titlebar does not display, so they leave this state
record unchanged. -/
def applyEffect (s : TitlebarState) : Effect → TitlebarState
  | Effect.shareProject _ => { s with is_shared := true }
  | _ => s

/-- The titlebar-visible state after a list of delegated effects. -/
def applyEffects (s : TitlebarState) (effects : List Effect) : TitlebarState :=
  effects.foldl applyEffect s

/-- Sample values used by witness theorems. -/
def sampleUser : User := { github_login := "alice", avatar := some 7 }

/-- A sample incoming call that carries an initial project. -/
def sampleCall : IncomingCall :=
  { caller := sampleUser, initial_project_id := some 5 }

/-- A sample notification view for `sampleCall`. -/
def sampleNotification : IncomingCallNotification := { call := sampleCall }

/-- The spawned accept future only talks to `Project::remote` and the window
system: every effect it emits opens a remote project or adds a workspace
window. -/
theorem accept_task_effects (initial_project_id : Option Nat)
    (join_ok remote_ok : Bool) :
    ∀ e ∈ IncomingCallNotification.accept_task initial_project_id join_ok
        remote_ok,
      ∃ p, e = Effect.openRemoteProject p ∨ e = Effect.addWorkspaceWindow p := by
  unfold IncomingCallNotification.accept_task
  cases join_ok <;> cases initial_project_id <;> cases remote_ok <;> simp

/-- C1: a handled `RespondToCall` with `accept = false` delegates to
`UserStore::decline_call` and never calls `ActiveCall::join`; with
`accept = true` it delegates to `ActiveCall::join` with the notification's
stored call and never calls `decline_call`. -/
theorem respond_to_call_delegation (n : IncomingCallNotification)
    (action : RespondToCall) (window_id : Nat) (join_ok remote_ok : Bool) :
    (action.accept = false →
      Effect.declineCall ∈
          n.respond_to_call action window_id join_ok remote_ok ∧
        ∀ c, Effect.joinCall c ∉
          n.respond_to_call action window_id join_ok remote_ok) ∧
    (action.accept = true →
      Effect.joinCall n.call ∈
          n.respond_to_call action window_id join_ok remote_ok ∧
        Effect.declineCall ∉
          n.respond_to_call action window_id join_ok remote_ok) := by
  unfold IncomingCallNotification.respond_to_call
  cases h : action.accept <;> simp
  intro hmem
  rcases accept_task_effects n.call.initial_project_id join_ok remote_ok _
    hmem with ⟨p, hp | hp⟩ <;> exact Effect.noConfusion hp

/-- Witness for C1 at concrete inputs. -/
theorem respond_to_call_delegation_witness :
    Effect.declineCall ∈
        sampleNotification.respond_to_call ⟨false⟩ 3 true true ∧
      Effect.joinCall sampleCall ∈
        sampleNotification.respond_to_call ⟨true⟩ 3 true true :=
  ⟨((respond_to_call_delegation sampleNotification ⟨false⟩ 3 true true).1
      rfl).1,
    ((respond_to_call_delegation sampleNotification ⟨true⟩ 3 true true).2
      rfl).1⟩

/-- The accept future neither adds nor removes notification pop-up windows. -/
theorem accept_task_windows (initial_project_id : Option Nat)
    (join_ok remote_ok : Bool) (windows : List Nat) :
    notificationWindowsAfter windows
        (IncomingCallNotification.accept_task initial_project_id join_ok
          remote_ok) = windows := by
  unfold IncomingCallNotification.accept_task
  cases join_ok <;> cases initial_project_id <;> cases remote_ok <;>
    simp [notificationWindowsAfter, notificationWindowStep]

/-- C2: every handled `RespondToCall`, accepting or declining, removes the
notification's own pop-up window: the handler emits `remove_window` for its
window id, and starting from that window being the open notification window,
no notification window remains open after the handler's effects. -/
theorem respond_to_call_removes_window (n : IncomingCallNotification)
    (action : RespondToCall) (window_id : Nat) (join_ok remote_ok : Bool) :
    Effect.removeWindow window_id ∈
        n.respond_to_call action window_id join_ok remote_ok ∧
      notificationWindowsAfter [window_id]
        (n.respond_to_call action window_id join_ok remote_ok) = [] := by
  unfold IncomingCallNotification.respond_to_call
  cases action.accept <;>
    simp [notificationWindowsAfter, notificationWindowStep, List.erase_cons,
      accept_task_windows]
  exact accept_task_windows n.call.initial_project_id join_ok remote_ok []

/-- C7: on an accepted call, once `ActiveCall::join` succeeds and the call
carries an `initial_project_id`, the handler opens that remote project via
`Project::remote` and, when that in turn succeeds, adds a workspace window
for it; when the join fails or there is no `initial_project_id`, no remote
project is opened and no workspace window is added. -/
theorem respond_accept_opens_remote_project (n : IncomingCallNotification)
    (window_id : Nat) (join_ok remote_ok : Bool) :
    (∀ p, join_ok = true → n.call.initial_project_id = some p →
      Effect.openRemoteProject p ∈
          n.respond_to_call ⟨true⟩ window_id join_ok remote_ok ∧
        (remote_ok = true →
          Effect.addWorkspaceWindow p ∈
            n.respond_to_call ⟨true⟩ window_id join_ok remote_ok)) ∧
    (join_ok = false ∨ n.call.initial_project_id = none →
      (∀ q, Effect.openRemoteProject q ∉
          n.respond_to_call ⟨true⟩ window_id join_ok remote_ok) ∧
        (∀ q, Effect.addWorkspaceWindow q ∉
          n.respond_to_call ⟨true⟩ window_id join_ok remote_ok)) := by
  unfold IncomingCallNotification.respond_to_call
    IncomingCallNotification.accept_task
  cases join_ok <;> cases hp : n.call.initial_project_id <;>
    cases remote_ok <;> simp [hp]

/-- Witness for C7 at concrete inputs. -/
theorem respond_accept_opens_remote_project_witness :
    Effect.openRemoteProject 5 ∈
        sampleNotification.respond_to_call ⟨true⟩ 3 true true ∧
      Effect.addWorkspaceWindow 5 ∈
        sampleNotification.respond_to_call ⟨true⟩ 3 true true :=
  ⟨((respond_accept_opens_remote_project sampleNotification 3 true true).1
        5 rfl rfl).1,
    ((respond_accept_opens_remote_project sampleNotification 3 true true).1
        5 rfl rfl).2 rfl⟩

/-- C8: evaluating the titlebar's render delegates nothing to external
services — its effect trace is empty — so the state it displays (the
project's shared/remote status, the active call's room, the user store and
the client status) is unchanged by rendering. -/
theorem titlebar_render_preserves_state (s : TitlebarState) :
    applyEffects s (CollabTitlebarItem.render s).2 = s ∧
      (CollabTitlebarItem.render s).2 = [] := by
  unfold CollabTitlebarItem.render
  by_cases h : s.workspace_alive <;> simp [h, applyEffects]

/-- A sample room for witness theorems. -/
def sampleRoom : Room :=
  { id := 11,
    remote_participants :=
      [(2, { user := { github_login := "bob", avatar := some 9 },
             location := ParticipantLocation.project 5 })] }

/-- A sample titlebar state: connected, workspace alive, unshared local
project, active room. -/
def sampleTitlebarState : TitlebarState :=
  { workspace_alive := true
    status := Status.connected 1
    is_shared := false
    is_remote := false
    remote_id := some 5
    replica_id := 0
    collaborators := [{ peer_id := 2, replica_id := 1 }]
    room := some sampleRoom
    current_user := some sampleUser
    following := []
    contacts_popover := false }

/-- C5: a handled `ShareProject` with a live workspace and an active room
delegates to `Project::share` with that room's id; with no active room it
performs no sharing call, and the project's shared state is unchanged under
the (empty) effect trace. -/
theorem share_project_delegation (s : TitlebarState) :
    (∀ room, s.workspace_alive = true → s.room = some room →
      CollabTitlebarItem.share_project s = [Effect.shareProject room.id]) ∧
    (s.room = none →
      CollabTitlebarItem.share_project s = [] ∧
        applyEffects s (CollabTitlebarItem.share_project s) = s) := by
  unfold CollabTitlebarItem.share_project
  constructor
  · intro room halive hroom
    simp [halive, hroom]
  · intro hroom
    by_cases halive : s.workspace_alive <;> simp [halive, hroom, applyEffects]

/-- Witness for C5 at concrete inputs. -/
theorem share_project_delegation_witness :
    CollabTitlebarItem.share_project sampleTitlebarState =
        [Effect.shareProject 11] ∧
      CollabTitlebarItem.share_project
          { sampleTitlebarState with room := none } = [] :=
  ⟨(share_project_delegation sampleTitlebarState).1 sampleRoom rfl rfl,
    (((share_project_delegation
        { sampleTitlebarState with room := none }).2) rfl).1⟩

/-- C4: `render_connection_status` yields an element exactly for the six
statuses the source names — the offline icon for the five error/reconnection
statuses and the update warning for `UpgradeRequired` — and `None` for every
other status. -/
theorem render_connection_status_cases (s : TitlebarState) :
    ((CollabTitlebarItem.render_connection_status s).isSome = true ↔
      s.status = Status.connectionError ∨ s.status = Status.connectionLost ∨
        s.status = Status.reauthenticating ∨
        s.status = Status.reconnecting ∨
        (∃ t, s.status = Status.reconnectionError t) ∨
        s.status = Status.upgradeRequired) ∧
    (s.status = Status.connectionError ∨ s.status = Status.connectionLost ∨
        s.status = Status.reauthenticating ∨
        s.status = Status.reconnecting ∨
        (∃ t, s.status = Status.reconnectionError t) →
      CollabTitlebarItem.render_connection_status s =
        some (Element.svg "icons/cloud_slash_12.svg")) ∧
    (s.status = Status.upgradeRequired →
      CollabTitlebarItem.render_connection_status s =
        some (Element.label "Please update Zed to collaborate")) ∧
    (s.status = Status.signedOut ∨ s.status = Status.authenticating ∨
        s.status = Status.connecting ∨ (∃ i, s.status = Status.connected i) →
      CollabTitlebarItem.render_connection_status s = none) := by
  unfold CollabTitlebarItem.render_connection_status
  cases h : s.status <;> simp [h]

/-- Witness for C4 at concrete statuses. -/
theorem render_connection_status_cases_witness :
    CollabTitlebarItem.render_connection_status
        { sampleTitlebarState with status := Status.connectionLost } =
        some (Element.svg "icons/cloud_slash_12.svg") ∧
      CollabTitlebarItem.render_connection_status
        { sampleTitlebarState with status := Status.upgradeRequired } =
        some (Element.label "Please update Zed to collaborate") ∧
      CollabTitlebarItem.render_connection_status sampleTitlebarState =
        none :=
  ⟨(render_connection_status_cases
        { sampleTitlebarState with status := Status.connectionLost }).2.1
      (Or.inr (Or.inl rfl)),
    ((render_connection_status_cases
        { sampleTitlebarState with status := Status.upgradeRequired }).2.2.1
      rfl),
    ((render_connection_status_cases sampleTitlebarState).2.2.2
      (Or.inr (Or.inr (Or.inr ⟨1, rfl⟩))))⟩

/-- C6: the notification's render always contains an Accept handler
dispatching `RespondToCall { accept: true }`, a Decline handler dispatching
`RespondToCall { accept: false }`, and a label with the caller's github
login. -/
theorem notification_render_contents (n : IncomingCallNotification) :
    (UiAction.respondToCall true, Element.label "Accept") ∈
        clickHandlers n.render ∧
      (UiAction.respondToCall false, Element.label "Decline") ∈
        clickHandlers n.render ∧
      n.call.caller.github_login ∈ labelTexts n.render := by
  cases h : n.call.caller.avatar <;>
    simp [IncomingCallNotification.render,
      IncomingCallNotification.render_caller,
      IncomingCallNotification.render_buttons, clickHandlers, clickHandlersL,
      labelTexts, labelTextsL, h]

/-- The watch-loop invariant: the open notification windows are exactly the
one recorded in the loop's `notification_window` variable. -/
def loopInv (s : LoopState) : Prop :=
  s.open_windows = s.notification_window.toList

/-- One loop iteration preserves the watch-loop invariant. -/
theorem loopStep_inv (s : LoopState) (incoming : Option IncomingCall)
    (h : loopInv s) : loopInv (loopStep s incoming) := by
  unfold loopInv at h ⊢
  unfold loopStep
  cases hw : s.notification_window <;> cases incoming <;>
    simp_all [List.erase_cons]

/-- The invariant holds after any prefix of the incoming-call stream. -/
theorem runLoop_inv (events : List (Option IncomingCall)) :
    loopInv (runLoop events) := by
  unfold runLoop
  have h : ∀ s, loopInv s → loopInv (events.foldl loopStep s) := by
    induction events with
    | nil => intro s hs; simpa using hs
    | cons e rest ih =>
        intro s hs
        simpa using ih (loopStep s e) (loopStep_inv s e hs)
  exact h initLoopState (by simp [loopInv, initLoopState])

/-- C9: at every point of the watch loop started by `init`, at most one
notification window exists — the open windows are exactly those recorded in
`notification_window`, hence at most one — and an iteration that yields no
incoming call removes the existing window and creates none. -/
theorem watch_loop_single_window (events : List (Option IncomingCall)) :
    (runLoop events).open_windows =
        (runLoop events).notification_window.toList ∧
      (runLoop events).open_windows.length ≤ 1 ∧
      (loopStep (runLoop events) none).open_windows = [] ∧
      (loopStep (runLoop events) none).notification_window = none := by
  have hinv := runLoop_inv events
  unfold loopInv at hinv
  have hstep := loopStep_inv (runLoop events) none (by exact hinv)
  refine ⟨hinv, ?_, ?_, ?_⟩
  · rw [hinv]; cases (runLoop events).notification_window <;> simp
  · unfold loopStep
    cases hw : (runLoop events).notification_window <;>
      simp_all [List.erase_cons]
  · unfold loopStep
    cases hw : (runLoop events).notification_window <;> simp_all

/-- `clickHandlersL` distributes over list append. -/
theorem clickHandlersL_append (l1 l2 : List Element) :
    clickHandlersL (l1 ++ l2) = clickHandlersL l1 ++ clickHandlersL l2 := by
  induction l1 with
  | nil => simp [clickHandlersL]
  | cons c cs ih => simp [clickHandlersL, ih]

/-- Membership in `clickHandlersL` comes from membership in one child. -/
theorem mem_clickHandlersL (pr : UiAction × Element) (l : List Element) :
    pr ∈ clickHandlersL l ↔ ∃ e ∈ l, pr ∈ clickHandlers e := by
  induction l with
  | nil => simp [clickHandlersL]
  | cons c cs ih => simp [clickHandlersL, ih]

/-- The handlers of an avatar rendered for a peer: exactly the
`ToggleFollow` handler for that peer. -/
theorem clickHandlers_render_avatar_peer (avatar replica_id peer_id : Nat)
    (login : String) (is_active : Bool) (s : TitlebarState) :
    clickHandlers (CollabTitlebarItem.render_avatar avatar replica_id
        (some (peer_id, login)) is_active s) =
      [(UiAction.toggleFollow peer_id,
        Element.stack [Element.image avatar,
          Element.avatarRibbon replica_id])] := by
  simp [CollabTitlebarItem.render_avatar, clickHandlers, clickHandlersL]

/-- The avatar rendered for the current user (no peer) has no handlers. -/
theorem clickHandlers_render_avatar_self (avatar replica_id : Nat)
    (is_active : Bool) (s : TitlebarState) :
    clickHandlers (CollabTitlebarItem.render_avatar avatar replica_id none
        is_active s) = [] := by
  simp [CollabTitlebarItem.render_avatar, clickHandlers, clickHandlersL]

/-- Every handler among the rendered collaborators dispatches a
`ToggleFollow`. -/
theorem collab_handler_actions (s : TitlebarState)
    (pr : UiAction × Element)
    (h : pr ∈ clickHandlersL (CollabTitlebarItem.render_collaborators s)) :
    ∃ peer_id, pr.1 = UiAction.toggleFollow peer_id := by
  unfold CollabTitlebarItem.render_collaborators at h
  cases hroom : s.room with
  | none => rw [hroom] at h; simp [clickHandlersL] at h
  | some room =>
      rw [hroom] at h
      rcases (mem_clickHandlersL pr _).1 h with ⟨e, he, hpr⟩
      rcases List.mem_filterMap.1 he with ⟨c, _, hfc⟩
      rcases hpart : Room.getParticipant room.remote_participants c.peer_id
        with _ | participant
      · simp [hpart] at hfc
      · rcases havatar : participant.user.avatar with _ | avatar
        · simp [hpart, havatar] at hfc
        · simp only [hpart, havatar] at hfc
          rw [Option.some.injEq] at hfc
          subst hfc
          rw [clickHandlers_render_avatar_peer] at hpr
          simp at hpr
          exact ⟨c.peer_id, by rw [hpr]⟩

/-- Every handler in the current-user element dispatches `Authenticate`. -/
theorem current_user_handler_actions (s : TitlebarState)
    (pr : UiAction × Element)
    (h : pr ∈
      clickHandlersL (CollabTitlebarItem.render_current_user s).toList) :
    pr.1 = UiAction.authenticate := by
  unfold CollabTitlebarItem.render_current_user at h
  rcases hu : s.current_user.bind (fun user => user.avatar) with _ | avatar
  · rw [hu] at h
    cases hst : s.status <;>
      simp_all [clickHandlersL, clickHandlers, labelTexts]
  · rw [hu] at h
    simp [clickHandlersL, clickHandlers_render_avatar_self] at h

/-- The connection-status element has no handlers. -/
theorem connection_status_handler_actions (s : TitlebarState) :
    clickHandlersL (CollabTitlebarItem.render_connection_status s).toList =
      [] := by
  unfold CollabTitlebarItem.render_connection_status
  cases s.status <;> simp [clickHandlersL, clickHandlers]

/-- The handlers of the toggle-contacts button: exactly the
`ToggleContactsPopover` handler on the plus icon. -/
theorem clickHandlers_toggle_contacts (s : TitlebarState) :
    clickHandlers (CollabTitlebarItem.render_toggle_contacts_button s) =
      [(UiAction.toggleContactsPopover, Element.svg "icons/plus_8.svg")] := by
  unfold CollabTitlebarItem.render_toggle_contacts_button
  cases s.contacts_popover <;> simp [clickHandlers, clickHandlersL]

/-- The handlers of the share button: exactly the `ShareProject` handler on
the Share label. -/
theorem clickHandlers_share_button (s : TitlebarState) :
    clickHandlers (CollabTitlebarItem.render_share_button s) =
      [(UiAction.shareProject, Element.label "Share")] := by
  simp [CollabTitlebarItem.render_share_button, clickHandlers, clickHandlersL]

/-- The actions dispatched by mouse handlers anywhere in the rendered
titlebar. -/
def renderedUiActions (s : TitlebarState) : List UiAction :=
  (clickHandlers (CollabTitlebarItem.render s).1).map Prod.fst

/-- For an action that is neither a `ToggleFollow` nor `Authenticate`,
membership in the titlebar row's handlers reduces to membership in the
call-control slot: the collaborator avatars, the current-user element and
the connection-status element cannot contribute it. -/
theorem mem_titlebar_row_controls (s : TitlebarState) (a : UiAction)
    (hnf : ∀ pid, a ≠ UiAction.toggleFollow pid)
    (hna : a ≠ UiAction.authenticate) (controls : List Element) :
    (a ∈ (clickHandlersL (controls ++
          CollabTitlebarItem.render_collaborators s ++
          (CollabTitlebarItem.render_current_user s).toList ++
          (CollabTitlebarItem.render_connection_status s).toList)).map
        Prod.fst ↔
      a ∈ (clickHandlersL controls).map Prod.fst) := by
  simp only [clickHandlersL_append, List.map_append, List.mem_append]
  constructor
  · rintro (((h | h) | h) | h)
    · exact h
    · exfalso
      rcases List.mem_map.1 h with ⟨pr, hpr, rfl⟩
      rcases collab_handler_actions s pr hpr with ⟨pid, hpid⟩
      exact hnf pid hpid
    · exfalso
      rcases List.mem_map.1 h with ⟨pr, hpr, rfl⟩
      exact hna (current_user_handler_actions s pr hpr)
    · rw [connection_status_handler_actions] at h
      simp at h
  · intro h
    exact Or.inl (Or.inl (Or.inl h))

/-- With a live workspace and a connected client, the titlebar's handler
actions are those of the chosen call control followed by the rest of the
row. -/
theorem renderedUiActions_eq (s : TitlebarState)
    (halive : s.workspace_alive = true)
    (hconn : s.status.is_connected = true) :
    renderedUiActions s =
      (clickHandlersL
          ((if s.is_shared || s.is_remote || s.room.isNone then
              [CollabTitlebarItem.render_toggle_contacts_button s]
            else [CollabTitlebarItem.render_share_button s]) ++
            CollabTitlebarItem.render_collaborators s ++
            (CollabTitlebarItem.render_current_user s).toList ++
            (CollabTitlebarItem.render_connection_status s).toList)).map
        Prod.fst := by
  unfold renderedUiActions CollabTitlebarItem.render
  rw [if_pos halive]
  simp only [hconn, if_true]
  simp [clickHandlers]

/-- With a disconnected client, no call-control action (nor any action other
than follow/authenticate ones) is dispatchable from the titlebar. -/
theorem renderedUiActions_not_connected (s : TitlebarState)
    (hconn : s.status.is_connected = false) (a : UiAction)
    (hnf : ∀ pid, a ≠ UiAction.toggleFollow pid)
    (hna : a ≠ UiAction.authenticate) :
    a ∉ renderedUiActions s := by
  intro h
  unfold renderedUiActions CollabTitlebarItem.render at h
  by_cases halive : s.workspace_alive = true
  · rw [if_pos halive] at h
    simp only [hconn, Bool.false_eq_true, if_false] at h
    simp only [clickHandlers] at h
    rw [mem_titlebar_row_controls s a hnf hna []] at h
    simp [clickHandlersL] at h
  · rw [if_neg halive] at h
    simp [clickHandlers] at h

/-- C3: when the titlebar renders with a live workspace and a connected
client, exactly one of the two call controls appears — `ShareProject` is
dispatchable iff a room is active and the project is neither shared nor
remote, and `ToggleContactsPopover` is dispatchable otherwise; when the
client is not connected, neither control is rendered. -/
theorem titlebar_call_controls (s : TitlebarState) :
    (s.workspace_alive = true → s.status.is_connected = true →
      ((UiAction.shareProject ∈ renderedUiActions s ↔
          (s.room.isSome = true ∧ s.is_shared = false ∧
            s.is_remote = false)) ∧
        (UiAction.toggleContactsPopover ∈ renderedUiActions s ↔
          ¬(s.room.isSome = true ∧ s.is_shared = false ∧
            s.is_remote = false)))) ∧
    (s.status.is_connected = false →
      UiAction.shareProject ∉ renderedUiActions s ∧
        UiAction.toggleContactsPopover ∉ renderedUiActions s) := by
  have hshareNF : ∀ pid, UiAction.shareProject ≠ UiAction.toggleFollow pid :=
    fun pid h => UiAction.noConfusion h
  have hshareNA : UiAction.shareProject ≠ UiAction.authenticate :=
    fun h => UiAction.noConfusion h
  have htogNF : ∀ pid,
      UiAction.toggleContactsPopover ≠ UiAction.toggleFollow pid :=
    fun pid h => UiAction.noConfusion h
  have htogNA : UiAction.toggleContactsPopover ≠ UiAction.authenticate :=
    fun h => UiAction.noConfusion h
  constructor
  · intro halive hconn
    rw [renderedUiActions_eq s halive hconn]
    rw [mem_titlebar_row_controls s UiAction.shareProject hshareNF hshareNA]
    rw [mem_titlebar_row_controls s UiAction.toggleContactsPopover htogNF
      htogNA]
    cases hsh : s.is_shared <;> cases hrm : s.is_remote <;>
      cases hroom : s.room <;>
      simp [clickHandlersL, clickHandlers_toggle_contacts,
        clickHandlers_share_button]
  · intro hconn
    exact ⟨renderedUiActions_not_connected s hconn UiAction.shareProject
        hshareNF hshareNA,
      renderedUiActions_not_connected s hconn UiAction.toggleContactsPopover
        htogNF htogNA⟩

/-- Witness for C3 at concrete inputs: the sample state shows the share
button, and the same state with the room dropped shows the toggle-contacts
button instead. -/
theorem titlebar_call_controls_witness :
    UiAction.shareProject ∈ renderedUiActions sampleTitlebarState ∧
      UiAction.toggleContactsPopover ∈
        renderedUiActions { sampleTitlebarState with room := none } :=
  ⟨(((titlebar_call_controls sampleTitlebarState).1 rfl rfl).1).2
      ⟨rfl, rfl, rfl⟩,
    (((titlebar_call_controls
          { sampleTitlebarState with room := none }).1 rfl rfl).2).2
      (by simp)⟩

/-- Inserting into the sorted list permutes consing. -/
theorem insertByReplicaId_perm (c : Collaborator) (l : List Collaborator) :
    List.Perm (insertByReplicaId c l) (c :: l) := by
  induction l with
  | nil => simp [insertByReplicaId]
  | cons d ds ih =>
      unfold insertByReplicaId
      by_cases h : c.replica_id ≤ d.replica_id
      · rw [if_pos h]
      · rw [if_neg h]
        exact List.Perm.trans (List.Perm.cons d ih) (List.Perm.swap c d ds)

/-- `sort_by_key` permutes its input. -/
theorem sortByReplicaId_perm (l : List Collaborator) :
    List.Perm (sortByReplicaId l) l := by
  induction l with
  | nil => simp [sortByReplicaId]
  | cons c cs ih =>
      unfold sortByReplicaId
      exact List.Perm.trans (insertByReplicaId_perm c (sortByReplicaId cs))
        (List.Perm.cons c ih)

/-- Inserting into a list sorted by replica id keeps it sorted. -/
theorem pairwise_insertByReplicaId (c : Collaborator) (l : List Collaborator)
    (h : List.Pairwise (fun a b => a.replica_id ≤ b.replica_id) l) :
    List.Pairwise (fun a b => a.replica_id ≤ b.replica_id)
      (insertByReplicaId c l) := by
  induction l with
  | nil => simp [insertByReplicaId]
  | cons d ds ih =>
      rw [List.pairwise_cons] at h
      rcases h with ⟨hd, hds⟩
      unfold insertByReplicaId
      by_cases hc : c.replica_id ≤ d.replica_id
      · rw [if_pos hc, List.pairwise_cons]
        refine ⟨?_, ?_⟩
        · intro a ha
          rcases List.mem_cons.1 ha with rfl | ha
          · exact hc
          · exact le_trans hc (hd a ha)
        · rw [List.pairwise_cons]
          exact ⟨hd, hds⟩
      · rw [if_neg hc, List.pairwise_cons]
        refine ⟨?_, ih hds⟩
        intro a ha
        have ha2 : a ∈ c :: ds := (insertByReplicaId_perm c ds).mem_iff.1 ha
        rcases List.mem_cons.1 ha2 with rfl | ha3
        · omega
        · exact hd a ha3

/-- `sort_by_key(replica_id)` sorts by replica id. -/
theorem pairwise_sortByReplicaId (l : List Collaborator) :
    List.Pairwise (fun a b => a.replica_id ≤ b.replica_id)
      (sortByReplicaId l) := by
  induction l with
  | nil => simp [sortByReplicaId]
  | cons c cs ih => exact pairwise_insertByReplicaId c _ ih

/-- Membership in `ribbonIdsL` comes from membership in one child. -/
theorem mem_ribbonIdsL (x : Nat) (l : List Element) :
    x ∈ ribbonIdsL l ↔ ∃ e ∈ l, x ∈ ribbonIds e := by
  induction l with
  | nil => simp [ribbonIdsL]
  | cons c cs ih => simp [ribbonIdsL, ih]

/-- A rendered avatar carries exactly one ribbon, keyed by its replica id. -/
theorem ribbonIds_render_avatar (avatar replica_id : Nat)
    (peer : Option (Nat × String)) (is_active : Bool) (s : TitlebarState) :
    ribbonIds (CollabTitlebarItem.render_avatar avatar replica_id peer
      is_active s) = [replica_id] := by
  rcases peer with _ | ⟨pid, login⟩ <;>
    simp [CollabTitlebarItem.render_avatar, ribbonIds, ribbonIdsL]

/-- If every element produced by `f` carries exactly the producing
collaborator's replica id as its ribbon, then filtering a
replica-id-sorted collaborator list yields ribbons in ascending order. -/
theorem pairwise_ribbonIdsL_filterMap (f : Collaborator → Option Element)
    (hf : ∀ c e, f c = some e → ribbonIds e = [c.replica_id])
    (l : List Collaborator)
    (hl : List.Pairwise (fun a b => a.replica_id ≤ b.replica_id) l) :
    List.Pairwise (fun a b => a ≤ b) (ribbonIdsL (l.filterMap f)) := by
  induction l with
  | nil => simp [ribbonIdsL]
  | cons c cs ih =>
      rw [List.pairwise_cons] at hl
      rcases hl with ⟨hhead, htail⟩
      cases hfc : f c with
      | none => rw [List.filterMap_cons_none hfc]; exact ih htail
      | some e =>
          rw [List.filterMap_cons_some hfc, ribbonIdsL, hf c e hfc,
            List.singleton_append, List.pairwise_cons]
          refine ⟨?_, ih htail⟩
          intro x hx
          rcases (mem_ribbonIdsL x _).1 hx with ⟨e2, he2, hxe2⟩
          rcases List.mem_filterMap.1 he2 with ⟨c2, hc2, hfc2⟩
          rw [hf c2 e2 hfc2] at hxe2
          rcases List.mem_singleton.1 hxe2 with rfl
          exact hhead c2 hc2

/-- C10: with an active room, the titlebar's collaborator avatars appear in
ascending replica-id order (observed through their ribbons), and — when the
collaborator map's peer-id keys are distinct, as map keys are — a
collaborator is rendered (observed through its `ToggleFollow` handler)
exactly when its peer id is among the room's remote participants and that
participant's user has an avatar; with no active room nothing is
rendered. -/
theorem titlebar_collaborators (s : TitlebarState) :
    (s.room = none → CollabTitlebarItem.render_collaborators s = []) ∧
    (∀ room, s.room = some room →
      List.Pairwise (fun a b => a ≤ b)
          (ribbonIdsL (CollabTitlebarItem.render_collaborators s)) ∧
        ((s.collaborators.map Collaborator.peer_id).Nodup →
          ∀ c ∈ s.collaborators,
            ((∃ participant,
                Room.getParticipant room.remote_participants c.peer_id =
                  some participant ∧
                participant.user.avatar.isSome = true) ↔
              UiAction.toggleFollow c.peer_id ∈
                (clickHandlersL
                  (CollabTitlebarItem.render_collaborators s)).map
                  Prod.fst))) := by
  constructor
  · intro h
    unfold CollabTitlebarItem.render_collaborators
    rw [h]
  · intro room hroom
    constructor
    · unfold CollabTitlebarItem.render_collaborators
      rw [hroom]
      refine pairwise_ribbonIdsL_filterMap _ ?_ _
        (pairwise_sortByReplicaId s.collaborators)
      intro c e hfc
      rcases hpart : Room.getParticipant room.remote_participants c.peer_id
        with _ | participant
      · simp [hpart] at hfc
      · rcases havatar : participant.user.avatar with _ | avatar
        · simp [hpart, havatar] at hfc
        · simp only [hpart, havatar] at hfc
          rw [Option.some.injEq] at hfc
          subst hfc
          exact ribbonIds_render_avatar _ _ _ _ _
    · intro hnodup c hc
      constructor
      · intro hcond
        rcases hcond with ⟨participant, hpart, hav⟩
        rcases Option.isSome_iff_exists.1 hav with ⟨avatar, havatar⟩
        have hsort : c ∈ sortByReplicaId s.collaborators :=
          (sortByReplicaId_perm s.collaborators).mem_iff.2 hc
        have hememb :
            CollabTitlebarItem.render_avatar avatar c.replica_id
                (some (c.peer_id, participant.user.github_login))
                (match s.remote_id with
                  | some project_id =>
                      decide (participant.location =
                        ParticipantLocation.project project_id)
                  | none => false) s ∈
              CollabTitlebarItem.render_collaborators s := by
          unfold CollabTitlebarItem.render_collaborators
          simp only [hroom]
          refine List.mem_filterMap.2 ⟨c, hsort, ?_⟩
          simp only [hpart, havatar]
        refine List.mem_map.2 ⟨(UiAction.toggleFollow c.peer_id,
          Element.stack [Element.image avatar,
            Element.avatarRibbon c.replica_id]), ?_, rfl⟩
        refine (mem_clickHandlersL _ _).2 ⟨_, hememb, ?_⟩
        rw [clickHandlers_render_avatar_peer]
        simp
      · intro hmem
        rcases List.mem_map.1 hmem with ⟨pr, hpr, hfst⟩
        rcases (mem_clickHandlersL pr _).1 hpr with ⟨e, he, hpre⟩
        unfold CollabTitlebarItem.render_collaborators at he
        simp only [hroom] at he
        rcases List.mem_filterMap.1 he with ⟨c2, hc2, hfc2⟩
        rcases hpart : Room.getParticipant room.remote_participants c2.peer_id
          with _ | participant
        · simp [hpart] at hfc2
        · rcases havatar : participant.user.avatar with _ | avatar
          · simp [hpart, havatar] at hfc2
          · simp only [hpart, havatar] at hfc2
            rw [Option.some.injEq] at hfc2
            subst hfc2
            rw [clickHandlers_render_avatar_peer] at hpre
            rcases List.mem_singleton.1 hpre with rfl
            simp only [] at hfst
            have hpeq : c2.peer_id = c.peer_id := by
              have := hfst
              simp at this
              exact this
            have hc2mem : c2 ∈ s.collaborators :=
              (sortByReplicaId_perm s.collaborators).mem_iff.1 hc2
            have hceq : c2 = c :=
              List.inj_on_of_nodup_map hnodup hc2mem hc hpeq
            subst hceq
            exact ⟨participant, hpart, by simp [havatar]⟩

/-- Witness for C10 at concrete inputs: in the sample state, the single
collaborator (peer 2, replica 1) is a remote participant with an avatar, so
its `ToggleFollow` handler is rendered. -/
theorem titlebar_collaborators_witness :
    UiAction.toggleFollow 2 ∈
      (clickHandlersL
        (CollabTitlebarItem.render_collaborators sampleTitlebarState)).map
        Prod.fst :=
  (((titlebar_collaborators sampleTitlebarState).2 sampleRoom rfl).2
      (by decide) { peer_id := 2, replica_id := 1 } (by decide)).1
    ⟨{ user := { github_login := "bob", avatar := some 9 },
        location := ParticipantLocation.project 5 }, rfl, rfl⟩
